import Mathlib

/-!
# Verification of the dictionary-lookup app core

Shallow embedding of the search/home screen (`src/index.tsx`) and the
results screen (`src/results.tsx`) of the Sanskrit/Ayurveda dictionary
app: the debounce combinator, the suggestion/result fetchers, the
search-history store, the favorites store and the filter selection.
-/

namespace DictApp

/-- A lookup result, `interface DictionaryEntry` in `src/index.tsx`.
Lean rejects Devanagari identifiers, so the source's field names are
transliterated: `pada` = `पद`, `linga` = `लिंग`, `vyakhya` = `व्याख्या`,
`sandarbha` = `सन्दर्भ`, `marathiArtha` = `मराठी_अर्थ`. -/
structure DictionaryEntry where
  _id : String
  pada : String
  linga : Option String := none
  vyakhya : Option String := none
  sandarbha : Option String := none
  marathiArtha : Option String := none
deriving Repr, DecidableEq

/-- Source function `saveToHistory` (src/index.tsx:55), the pure list update passed to
`setHistory` and persisted:
`[term, ...history.filter(item => item !== term)].slice(0, 5)`. -/
def saveToHistory (term : String) (history : List String) : List String :=
  (term :: history.filter (fun item => item ≠ term)).take 5

/-- The persistence write performed by `saveToHistory` (src/index.tsx:57):
`AsyncStorage.setItem('searchHistory', JSON.stringify(updated))` — the fixed
key paired with the list it stores (serialization is the platform's). -/
def saveToHistoryWrite (term : String) (history : List String) : String × List String :=
  ("searchHistory", saveToHistory term history)

/-- The query parameters of a `GET /word` request (`params:` of `API.get`
in src/index.tsx:68-73 and src/results.tsx:37-42): the search term and the
optional filter tag (`none` stands for JS `undefined`, produced by
`selectedFilter || undefined`). -/
structure SearchRequestParams where
  word : String
  filter : Option String
deriving Repr, DecidableEq

/-- The payload of a lookup response (`response.data`): a `success` flag and
a possibly absent `results` array. -/
structure ApiResponse where
  success : Bool
  results : Option (List DictionaryEntry) := none
deriving Repr, DecidableEq

/-- Outcome of the awaited `API.get` call, an external collaborator: either
a response object or a thrown transport error. -/
abbrev ApiCall := Except String ApiResponse

/-- The home screen's state hooks (src/index.tsx:39-43), with their
`useState` initial values as defaults. -/
structure HomeState where
  word : String := ""
  suggestions : List DictionaryEntry := []
  history : List String := []
  selectedFilter : Option String := none
  isSearching : Bool := false
deriving Repr, DecidableEq

/-- Observable effects of one `fetchSuggestions` run: the resulting home
state, the `GET /word` request issued (if any), and the value of the
`isSearching` flag while the call was awaited. -/
structure FetchTrace where
  state : HomeState
  apiCall : Option SearchRequestParams
  flagDuringCall : Option Bool
deriving Repr, DecidableEq

/-- The guarded fetch body shared verbatim by `fetchSuggestions`
(src/index.tsx:67-85) and `fetchResults` (src/results.tsx:36-54):
`try { const response = await API.get(...); if (response.data.success)
set…(response.data.results || []); else set…([]); } catch (error) {
console.error(...); set…([]); }` — the awaited call is the bind, the
`catch` is the `tryCatch` handler. Yields the list assigned to the
suggestion/result state. -/
def fetchBody (outcome : ApiCall) : Except String (List DictionaryEntry) :=
  Except.tryCatch
    (outcome.bind fun resp =>
      if resp.success then pure (resp.results.getD []) else pure [])
    (fun _e => pure [])

/-- The list the guarded fetch body assigns to state, as a function of the
call outcome: the returned entries on success (`[]` when the `results`
field is absent), `[]` on a false `success` flag or a thrown error. -/
def fetchOutcomeList (outcome : ApiCall) : List DictionaryEntry :=
  match outcome with
  | .ok resp => if resp.success then resp.results.getD [] else []
  | .error _ => []

/-- Source function `fetchSuggestions` (src/index.tsx:60-86). The external `API.get` outcome
is the `outcome` parameter. Returns `Except` so that an exception escaping
the function would appear as `.error`; the source's `try`/`catch` is
`fetchBody`, the `finally` (`setIsSearching(false)`) is the final state
update. -/
def fetchSuggestions (input : String) (outcome : ApiCall) (s : HomeState) :
    Except String FetchTrace :=
  if input = "" then
    .ok { state := { s with suggestions := [] }, apiCall := none, flagDuringCall := none }
  else
    let s1 := { s with isSearching := true }
    let req : SearchRequestParams := { word := input, filter := s.selectedFilter }
    (fetchBody outcome).map fun sugg =>
      { state := { s1 with suggestions := sugg, isSearching := false },
        apiCall := some req, flagDuringCall := some s1.isSearching }

/-- The new filter value computed by `toggleFilter` (src/index.tsx:115):
`selectedFilter === filterName ? null : filterName`. -/
def toggleFilterNewFilter (selectedFilter : Option String) (filterName : String) :
    Option String :=
  if selectedFilter = some filterName then none else some filterName

/-- Observable effects of one `toggleFilter` run: the state after the
re-render and the request of the fetch the handler issued synchronously
(not through `debouncedFetch`), if any. -/
structure ToggleFilterTrace where
  state : HomeState
  immediateFetch : Option SearchRequestParams
deriving Repr, DecidableEq

/-- Source function `toggleFilter` (src/index.tsx:114-120). React semantics: the
`setSelectedFilter(newFilter)` call schedules a state update for the next
render but does not change the `selectedFilter` binding captured by the
current render's `fetchSuggestions` closure, so the fetch issued on a
non-empty `word` runs against the pre-toggle state `s`. The filter only
becomes `newFilter` in the state produced for the next render. -/
def toggleFilter (filterName : String) (outcome : ApiCall) (s : HomeState) :
    Except String ToggleFilterTrace :=
  let newFilter := toggleFilterNewFilter s.selectedFilter filterName
  if s.word = "" then
    .ok { state := { s with selectedFilter := newFilter }, immediateFetch := none }
  else
    (fetchSuggestions s.word outcome s).map fun tr =>
      { state := { tr.state with selectedFilter := newFilter },
        immediateFetch := tr.apiCall }

/-- The results screen's state hooks (src/results.tsx:21-23), with their
`useState` initial values as defaults (`loading` starts `true`). -/
structure ResultsState where
  results : List DictionaryEntry := []
  loading : Bool := true
  favorites : List String := []
deriving Repr, DecidableEq

/-- The results screen's state at mount, before any effect has run. -/
def resultsMountState : ResultsState := {}

/-- JS falsiness of the `word` navigation parameter (`!word` in
src/results.tsx:33): true when the parameter is absent (`undefined`) or the
empty string. -/
def paramFalsy : Option String → Bool
  | none => true
  | some w => w == ""

/-- Observable effects of one `fetchResults` run, mirroring `FetchTrace`. -/
structure ResultsFetchTrace where
  state : ResultsState
  apiCall : Option SearchRequestParams
  loadingDuringCall : Option Bool
deriving Repr, DecidableEq

/-- Source function `fetchResults` (src/results.tsx:32-55): early return on a falsy `word`
param (before `setLoading(true)`), otherwise the same guarded fetch as
`fetchSuggestions` with `setLoading` in place of `setIsSearching`. -/
def fetchResults (word filter : Option String) (outcome : ApiCall) (s : ResultsState) :
    Except String ResultsFetchTrace :=
  if paramFalsy word then
    .ok { state := s, apiCall := none, loadingDuringCall := none }
  else
    let s1 := { s with loading := true }
    let req : SearchRequestParams := { word := word.getD "", filter := filter }
    (fetchBody outcome).map fun rs =>
      { state := { s1 with results := rs, loading := false },
        apiCall := some req, loadingDuringCall := some s1.loading }

/-- Source function `toggleFavorite` (src/results.tsx:62-68), the pure list update passed to
`setFavorites` and persisted: remove the term if present
(`favorites.filter(item => item !== term)`), else append it
(`[...favorites, term]`). -/
def toggleFavorite (term : String) (favorites : List String) : List String :=
  if favorites.contains term then favorites.filter (fun item => item ≠ term)
  else favorites ++ [term]

/-- The persistence write performed by `toggleFavorite` (src/results.tsx:67):
`AsyncStorage.setItem('favorites', JSON.stringify(updated))`. -/
def toggleFavoriteWrite (term : String) (favorites : List String) : String × List String :=
  ("favorites", toggleFavorite term favorites)

/-- A string held in the device key/value store, classified by what the JS
builtin `JSON.parse` does with it: a well-formed serialized string array,
or a value `JSON.parse` rejects. -/
inductive StoredValue where
  | json (l : List String)
  | corrupt
deriving Repr, DecidableEq

/-- The JS builtin `JSON.parse` applied to a stored value: yields the array
for a well-formed value, throws a `SyntaxError` on a corrupt one. -/
def jsonParse : StoredValue → Except String (List String)
  | .json l => .ok l
  | .corrupt => .error "SyntaxError"

/-- The device key/value store: `AsyncStorage.getItem` returns the value
stored at a key, or null when the key is absent. -/
def Storage : Type := String → Option StoredValue

/-- Source function `loadHistory` (src/index.tsx:49-52): `history` starts as `[]`
(`useState<string[]>([])`); when `getItem('searchHistory')` returns a value
it is passed to `JSON.parse` — with no surrounding `try`/`catch` — and set.
Returns the resulting `history` state, or the escaping parse error. -/
def loadHistory (storage : Storage) : Except String (List String) :=
  match storage "searchHistory" with
  | none => .ok []
  | some stored => jsonParse stored

/-- Source function `loadFavorites` (src/results.tsx:57-60): identical shape to
`loadHistory` under the key `'favorites'`, equally without a `catch`. -/
def loadFavorites (storage : Storage) : Except String (List String) :=
  match storage "favorites" with
  | none => .ok []
  | some stored => jsonParse stored

/-- State of one `debounce(func, delay)` closure (src/index.tsx:30-36): the
mutable `timeout` handle, modelled as the pending timer's fire time and
captured arguments, together with the log of completed `func(...args)`
invocations. -/
structure DebounceState (α : Type) where
  pending : Option (Nat × α) := none
  fired : List α := []
deriving Repr, DecidableEq

/-- The event loop delivering a due timer: a pending timer whose fire time
has been reached runs `func(...args)` — the invocation is appended to
`fired` — and the timer is consumed. A cancelled timer no longer appears in
`pending`, so it can never reach this step. -/
def debounceExpire (now : Nat) (s : DebounceState α) : DebounceState α :=
  match s.pending with
  | some (t, a) => if t ≤ now then { pending := none, fired := s.fired ++ [a] } else s
  | none => s

/-- The wrapped trigger function returned by `debounce` (src/index.tsx:32-35):
`clearTimeout(timeout); timeout = setTimeout(() => func(...args), delay)` —
whatever timer was pending is cancelled and a single fresh timer is
scheduled `delay` units after `now` with the new arguments. -/
def debounceTrigger (delay : Nat) (now : Nat) (args : α) (s : DebounceState α) :
    DebounceState α :=
  { s with pending := some (now + delay, args) }

/-- Run a sequence of timestamped trigger calls on the single-threaded event
loop: before each call, any timer already due fires; then the trigger
executes. -/
def debounceRun (delay : Nat) (s : DebounceState α) : List (Nat × α) → DebounceState α
  | [] => s
  | (now, a) :: rest => debounceRun delay (debounceTrigger delay now a (debounceExpire now s)) rest

/-! ## Helper lemmas -/

/-- The guarded fetch body never propagates an error and computes
`fetchOutcomeList`: the `catch` clause swallows a thrown error into `[]`. -/
lemma fetchBody_eq (outcome : ApiCall) : fetchBody outcome = .ok (fetchOutcomeList outcome) := by
  cases outcome with
  | ok resp =>
    cases h : resp.success <;>
      simp [fetchBody, fetchOutcomeList, Except.tryCatch, Except.bind, h, pure, Except.pure]
  | error e => rfl

/-- One `saveToHistory` step yields at most 5 entries (the `slice(0, 5)`). -/
lemma saveToHistory_length_le (term : String) (history : List String) :
    (saveToHistory term history).length ≤ 5 := by
  simp [saveToHistory, List.length_take]

/-- One `saveToHistory` step preserves freedom from duplicates: the filter
removes every copy of `term` before it is prepended. -/
lemma saveToHistory_nodup (term : String) (history : List String) (h : history.Nodup) :
    (saveToHistory term history).Nodup := by
  refine List.Nodup.sublist (List.take_sublist _ _) (List.nodup_cons.mpr ⟨?_, h.filter _⟩)
  simp

/-- Folding `saveToHistory` preserves the history store's invariant. -/
lemma foldl_saveToHistory_invariant (terms : List String) :
    ∀ h : List String, h.Nodup → h.length ≤ 5 →
      (terms.foldl (fun acc t => saveToHistory t acc) h).Nodup ∧
      (terms.foldl (fun acc t => saveToHistory t acc) h).length ≤ 5 := by
  induction terms with
  | nil => exact fun h hn hl => ⟨hn, hl⟩
  | cons t ts ih =>
    intro h hn _
    exact ih _ (saveToHistory_nodup t h hn) (saveToHistory_length_le t h)

/-- Running further trigger calls, each arriving before the pending timer's
fire time, repeatedly cancels and reschedules: nothing fires and the single
pending timer carries the last call's arguments. -/
lemma debounceRun_rapid {α : Type} (delay : Nat) (cs : List (Nat × α)) :
    ∀ (t : Nat) (a : α),
      List.Chain (fun p q => q.1 < p.1 + delay) (t, a) cs →
      debounceRun delay { pending := some (t + delay, a), fired := [] } cs =
        { pending := some ((cs.getLastD (t, a)).1 + delay, (cs.getLastD (t, a)).2),
          fired := [] } := by
  induction cs with
  | nil => intro t a _; rfl
  | cons c cs' ih =>
    intro t a hchain
    obtain ⟨t', a'⟩ := c
    rw [List.chain_cons] at hchain
    obtain ⟨hlt, hrest⟩ := hchain
    have hexp : debounceExpire t' { pending := some (t + delay, a), fired := ([] : List α) } =
        { pending := some (t + delay, a), fired := [] } := by
      unfold debounceExpire
      simp only
      rw [if_neg (by omega : ¬ t + delay ≤ t')]
    show debounceRun delay
        (debounceTrigger delay t' a'
          (debounceExpire t' { pending := some (t + delay, a), fired := [] })) cs' = _
    rw [hexp, List.getLastD_cons]
    exact ih t' a' hrest

/-! ## Claim theorems -/

/-- C1: For the wrapped function returned by `debounce(handler, 500)`: a
sequence of rapid trigger calls — each arriving within 500 units of the
previous, hence inside one delay window — produces, once the window
elapses, exactly one underlying handler invocation, carrying the arguments
of the last call of the sequence; every earlier call's scheduled
invocation was cancelled and never executes (the invocation log holds only
the last call's arguments). -/
theorem debounce_rapid_calls_fire_once_with_last_args {α : Type}
    (t0 : Nat) (a0 : α) (calls : List (Nat × α)) (tEnd : Nat)
    (hchain : List.Chain (fun p q => q.1 < p.1 + 500) (t0, a0) calls)
    (hend : (calls.getLastD (t0, a0)).1 + 500 ≤ tEnd) :
    debounceExpire tEnd (debounceRun 500 (debounceTrigger 500 t0 a0 {}) calls) =
      { pending := none, fired := [(calls.getLastD (t0, a0)).2] } := by
  have h0 : debounceTrigger 500 t0 a0 ({} : DebounceState α) =
      { pending := some (t0 + 500, a0), fired := [] } := rfl
  rw [h0, debounceRun_rapid 500 calls t0 a0 hchain]
  unfold debounceExpire
  simp only
  rw [if_pos hend]
  simp

/-- Witness for C1: triggers `"a"`, `"ab"`, `"abc"` at times 0, 100, 200
with delay 500; after time 700 the handler ran exactly once, with
`"abc"`. -/
theorem debounce_rapid_calls_fire_once_with_last_args_witness :
    List.Chain (fun p q : Nat × String => q.1 < p.1 + 500) (0, "a") [(100, "ab"), (200, "abc")] ∧
    ([(100, "ab"), (200, "abc")].getLastD ((0 : Nat), "a")).1 + 500 ≤ 700 ∧
    debounceExpire 700
        (debounceRun 500 (debounceTrigger 500 0 "a" {}) [(100, "ab"), (200, "abc")]) =
      { pending := none, fired := ["abc"] } :=
  ⟨.cons (by decide) (.cons (by decide) .nil), by decide,
    debounce_rapid_calls_fire_once_with_last_args 0 "a" [(100, "ab"), (200, "abc")] 700
      (.cons (by decide) (.cons (by decide) .nil)) (by decide)⟩

/-- Record as §4.3 of the spec words it, kept separate from the
source-derived `saveToHistory` for comparison: remove any prior occurrence
of `term`, prepend `term` at the front, then truncate to the 5 most recent
entries. -/
def recordSpec (term : String) (history : List String) : List String :=
  List.take 5 (term :: List.filter (fun item => item ≠ term) history)

/-- C2: `saveToHistory` computes exactly the spec's remove/prepend/truncate
update, persists it under the fixed key `'searchHistory'`, and recording
"अ", "ब", "क", "ड", "इ", "फ" in order from an empty history yields
["फ","इ","ड","क","ब"]. -/
theorem saveToHistory_matches_record_spec :
    (∀ term history, saveToHistory term history = recordSpec term history) ∧
    (∀ term history,
      saveToHistoryWrite term history = ("searchHistory", saveToHistory term history)) ∧
    ["अ", "ब", "क", "ड", "इ", "फ"].foldl (fun acc t => saveToHistory t acc) [] =
      ["फ", "इ", "ड", "क", "ब"] :=
  ⟨fun _ _ => rfl, fun _ _ => rfl, by decide⟩

/-- C4: after any sequence of `record` calls applied to an initially empty
history, the resulting list has length at most 5 and no duplicate term. -/
theorem history_bounded_and_duplicate_free (terms : List String) :
    (terms.foldl (fun acc t => saveToHistory t acc) []).length ≤ 5 ∧
    (terms.foldl (fun acc t => saveToHistory t acc) []).Nodup := by
  have h := foldl_saveToHistory_invariant terms [] List.nodup_nil (by simp)
  exact ⟨h.2, h.1⟩

/-- C6: on a favorites collection in which each term appears at most once,
applying `toggleFavorite t` twice in succession restores the original
membership state: `t` is a member afterwards iff it was before, and no
other term's membership changes. -/
theorem toggleFavorite_twice_restores_membership (favorites : List String) (t : String)
    (_hnd : favorites.Nodup) :
    (t ∈ toggleFavorite t (toggleFavorite t favorites) ↔ t ∈ favorites) ∧
    ∀ s, s ≠ t → (s ∈ toggleFavorite t (toggleFavorite t favorites) ↔ s ∈ favorites) := by
  by_cases hmem : t ∈ favorites
  · have h1 : toggleFavorite t favorites = favorites.filter (fun item => item ≠ t) := by
      simp [toggleFavorite, List.contains, List.elem_iff, hmem]
    have h2 : toggleFavorite t (favorites.filter (fun item => item ≠ t)) =
        favorites.filter (fun item => item ≠ t) ++ [t] := by
      simp [toggleFavorite, List.contains, List.elem_iff, List.mem_filter]
    rw [h1, h2]
    refine ⟨by simp [hmem], fun s hs => ?_⟩
    simp [List.mem_append, List.mem_filter, hs]
  · have h1 : toggleFavorite t favorites = favorites ++ [t] := by
      simp [toggleFavorite, List.contains, List.elem_iff, hmem]
    have h2 : toggleFavorite t (favorites ++ [t]) =
        (favorites ++ [t]).filter (fun item => item ≠ t) := by
      simp [toggleFavorite, List.contains, List.elem_iff]
    rw [h1, h2]
    refine ⟨by simp [hmem], fun s hs => ?_⟩
    simp [List.mem_filter, List.mem_append, hs]

/-- Witness for C6: on favorites `["अश्वगंधा"]` the double toggle keeps
`"अश्वगंधा"` a member and leaves `"ब"` a non-member. -/
theorem toggleFavorite_twice_restores_membership_witness :
    (["अश्वगंधा"] : List String).Nodup ∧ ("ब" : String) ≠ "अश्वगंधा" ∧
    ("अश्वगंधा" ∈ toggleFavorite "अश्वगंधा" (toggleFavorite "अश्वगंधा" ["अश्वगंधा"]) ↔
      "अश्वगंधा" ∈ (["अश्वगंधा"] : List String)) ∧
    ("ब" ∈ toggleFavorite "अश्वगंधा" (toggleFavorite "अश्वगंधा" ["अश्वगंधा"]) ↔
      "ब" ∈ (["अश्वगंधा"] : List String)) := by
  refine ⟨by decide, by decide, ?_, ?_⟩
  · exact (toggleFavorite_twice_restores_membership ["अश्वगंधा"] "अश्वगंधा" (by decide)).1
  · exact (toggleFavorite_twice_restores_membership ["अश्वगंधा"] "अश्वगंधा" (by decide)).2
      "ब" (by decide)

/-- C7: `toggleFilter`'s new-filter computation sets the active filter to
the tag when no filter or a different filter is active and clears it when
the tag is already active; from no active filter, selecting A then A
yields no active filter and selecting A then B yields B active alone (the
`Option`-typed state makes two simultaneously active filters
unrepresentable). -/
theorem toggleFilterNewFilter_contract (cur : Option String) (a b : String) (hab : a ≠ b) :
    (cur = some a → toggleFilterNewFilter cur a = none) ∧
    (cur ≠ some a → toggleFilterNewFilter cur a = some a) ∧
    toggleFilterNewFilter (toggleFilterNewFilter none a) a = none ∧
    toggleFilterNewFilter (toggleFilterNewFilter none a) b = some b := by
  refine ⟨fun h => ?_, fun h => ?_, ?_, ?_⟩ <;> simp [toggleFilterNewFilter, *]

/-- Witness for C7: with tags `"पद"` and `"व्याख्या"`: toggling the active
`"पद"` clears it; from none, `"पद"` then `"पद"` clears, `"पद"` then
`"व्याख्या"` leaves `"व्याख्या"` alone active. -/
theorem toggleFilterNewFilter_contract_witness :
    ("पद" : String) ≠ "व्याख्या" ∧
    toggleFilterNewFilter (some "पद") "पद" = none ∧
    toggleFilterNewFilter none "पद" = some "पद" ∧
    toggleFilterNewFilter (toggleFilterNewFilter none "पद") "पद" = none ∧
    toggleFilterNewFilter (toggleFilterNewFilter none "पद") "व्याख्या" = some "व्याख्या" := by
  refine ⟨by decide, ?_, ?_, ?_, ?_⟩
  · exact (toggleFilterNewFilter_contract (some "पद") "पद" "व्याख्या" (by decide)).1 rfl
  · exact (toggleFilterNewFilter_contract none "पद" "व्याख्या" (by decide)).2.1 (by decide)
  · exact (toggleFilterNewFilter_contract none "पद" "व्याख्या" (by decide)).2.2.1
  · exact (toggleFilterNewFilter_contract none "पद" "व्याख्या" (by decide)).2.2.2

/-- C9: `fetchSuggestions` invoked with the empty string sets the
suggestion list to empty and issues no API request, whatever the filter
selection (part of the state `s`) and whatever the call outcome would have
been. -/
theorem fetchSuggestions_empty_input_no_api_call (outcome : ApiCall) (s : HomeState) :
    fetchSuggestions "" outcome s =
      .ok { state := { s with suggestions := [] }, apiCall := none, flagDuringCall := none } :=
  rfl

/-- C10: with the word navigation parameter absent or empty, `fetchResults`
returns before the API call and before any state change, so from the mount
state (loading `true`, results `[]`) the loading flag is never cleared and
the results list stays empty. -/
theorem fetchResults_falsy_word_keeps_loading (word filter : Option String) (outcome : ApiCall)
    (hw : paramFalsy word = true) :
    fetchResults word filter outcome resultsMountState =
      .ok { state := resultsMountState, apiCall := none, loadingDuringCall := none } ∧
    resultsMountState.loading = true ∧ resultsMountState.results = [] := by
  refine ⟨?_, rfl, rfl⟩
  unfold fetchResults
  rw [if_pos hw]

/-- Witness for C10: with the word parameter absent the screen keeps its
mount state, loading. -/
theorem fetchResults_falsy_word_keeps_loading_witness :
    paramFalsy none = true ∧
    (fetchResults none none (.ok { success := true, results := some [] }) resultsMountState =
      .ok { state := resultsMountState, apiCall := none, loadingDuringCall := none } ∧
     resultsMountState.loading = true ∧ resultsMountState.results = []) :=
  ⟨rfl, fetchResults_falsy_word_keeps_loading none none
    (.ok { success := true, results := some [] }) rfl⟩

/-- C8 counterexample: with a corrupt value stored under each fixed key,
`JSON.parse` throws and — there being no `catch` in `loadHistory`
(src/index.tsx:49-52) or `loadFavorites` (src/results.tsx:57-60) — the
error escapes the load operation instead of degrading to the empty
default, refuting "the load operations never throw". -/
theorem load_corrupt_value_throws :
    loadHistory (fun _ => some .corrupt) = .error "SyntaxError" ∧
    loadFavorites (fun _ => some .corrupt) = .error "SyntaxError" :=
  ⟨rfl, rfl⟩

/-- C8 (amended): when the stored value under the fixed key is absent, the
loads return without throwing and the in-memory collection is the empty
list; a corrupt stored value, however, makes the parse error escape the
load operation. -/
theorem load_absent_key_safe (sAbsent sCorrupt : Storage)
    (h1 : sAbsent "searchHistory" = none) (h2 : sAbsent "favorites" = none)
    (h3 : sCorrupt "searchHistory" = some .corrupt)
    (h4 : sCorrupt "favorites" = some .corrupt) :
    loadHistory sAbsent = .ok [] ∧ loadFavorites sAbsent = .ok [] ∧
    loadHistory sCorrupt = .error "SyntaxError" ∧
    loadFavorites sCorrupt = .error "SyntaxError" := by
  unfold loadHistory loadFavorites
  rw [h1, h2, h3, h4]
  exact ⟨rfl, rfl, rfl, rfl⟩

/-- Witness for the amended C8: the empty store and the all-corrupt store. -/
theorem load_absent_key_safe_witness :
    ((fun _ => none : Storage) "searchHistory" = none) ∧
    ((fun _ => none : Storage) "favorites" = none) ∧
    ((fun _ => some .corrupt : Storage) "searchHistory" = some .corrupt) ∧
    ((fun _ => some .corrupt : Storage) "favorites" = some .corrupt) ∧
    (loadHistory (fun _ => none) = .ok [] ∧ loadFavorites (fun _ => none) = .ok [] ∧
     loadHistory (fun _ => some .corrupt) = .error "SyntaxError" ∧
     loadFavorites (fun _ => some .corrupt) = .error "SyntaxError") :=
  ⟨rfl, rfl, rfl, rfl,
    load_absent_key_safe (fun _ => none) (fun _ => some .corrupt) rfl rfl rfl rfl⟩

/-- C5 (code bug): evaluating `toggleFilter "पद"` on the home state with
`word = "अ"` and no active filter: the toggle commits `some "पद"` to the
filter state and does issue an immediate (non-debounced) fetch, but that
fetch's request carries `filter := none` — the pre-toggle value the
render's `fetchSuggestions` closure had captured — not the newly selected
filter `toggleFilterNewFilter none "पद" = some "पद"`. -/
theorem toggleFilter_immediate_fetch_stale_filter :
    toggleFilter "पद" (.ok { success := true, results := some [] }) { word := "अ" } =
      .ok { state := { word := "अ", selectedFilter := some "पद" },
            immediateFetch := some { word := "अ", filter := none } } ∧
    some { word := "अ", filter := none } ≠
      some ({ word := "अ", filter := toggleFilterNewFilter none "पद" } : SearchRequestParams) :=
  ⟨rfl, by decide⟩

/-- C3: for a non-empty term, each fetch operation sets the in-progress
flag before the awaited call (`flagDuringCall`/`loadingDuringCall` is
`true`), clears it in the final state on every outcome, and returns `.ok`
— no exception escapes; and the list the body assigns is `[]` whenever the
response has `success: false` or the request throws. -/
theorem fetch_inflight_flag_and_error_handling
    (input w : String) (filt : Option String) (outcome outcome2 : ApiCall)
    (s : HomeState) (rs : ResultsState) (hin : input ≠ "") (hw : w ≠ "") :
    (fetchSuggestions input outcome s =
      .ok { state := { s with suggestions := fetchOutcomeList outcome, isSearching := false },
            apiCall := some { word := input, filter := s.selectedFilter },
            flagDuringCall := some true }) ∧
    (fetchResults (some w) filt outcome2 rs =
      .ok { state := { rs with results := fetchOutcomeList outcome2, loading := false },
            apiCall := some { word := w, filter := filt },
            loadingDuringCall := some true }) ∧
    (∀ e, outcome = .error e → fetchOutcomeList outcome = []) ∧
    (∀ resp, outcome = .ok resp → resp.success = false → fetchOutcomeList outcome = []) := by
  refine ⟨?_, ?_, ?_, ?_⟩
  · unfold fetchSuggestions
    rw [if_neg hin, fetchBody_eq]
    rfl
  · unfold fetchResults
    rw [if_neg (by simp [paramFalsy, hw] : ¬ paramFalsy (some w) = true), fetchBody_eq]
    rfl
  · intro e he; subst he; rfl
  · intro resp h hs; subst h; simp [fetchOutcomeList, hs]

/-- Witness for C3: a thrown transport error on the home screen and a
`success: false` response on the results screen both end not-in-progress
with an empty list, and no error escapes. -/
theorem fetch_inflight_flag_and_error_handling_witness :
    ("अ" : String) ≠ "" ∧ ("x" : String) ≠ "" ∧
    (fetchSuggestions "अ" (.error "network error") {} =
      .ok { state := { suggestions := fetchOutcomeList (.error "network error"),
                       isSearching := false },
            apiCall := some { word := "अ", filter := none },
            flagDuringCall := some true }) ∧
    (fetchResults (some "x") none (.ok { success := false }) {} =
      .ok { state := { results := fetchOutcomeList (.ok { success := false }),
                       loading := false },
            apiCall := some { word := "x", filter := none },
            loadingDuringCall := some true }) ∧
    fetchOutcomeList (.error "network error") = ([] : List DictionaryEntry) := by
  refine ⟨by decide, by decide, ?_, ?_, ?_⟩
  · exact (fetch_inflight_flag_and_error_handling "अ" "x" none (.error "network error")
      (.ok { success := false }) {} {} (by decide) (by decide)).1
  · exact (fetch_inflight_flag_and_error_handling "अ" "x" none (.error "network error")
      (.ok { success := false }) {} {} (by decide) (by decide)).2.1
  · exact (fetch_inflight_flag_and_error_handling "अ" "x" none (.error "network error")
      (.ok { success := false }) {} {} (by decide) (by decide)).2.2.1 "network error" rfl

end DictApp
